import Mathlib

/-!
Shallow embedding of the calculation engine of `src/streamlit_app.py`
(macro calculator): BMR, TDEE, calorie-target adjustment, macro split,
weight projection and its weekly digest.  Python numbers are modelled by
`ℚ`; Python `round` (banker's rounding, half to even) by `pyRound`;
dates by integer day offsets from today.
-/

namespace MacroCalc

/-- The `gender` selectbox offers exactly "Male" and "Female". -/
inductive Gender
  | male
  | female
deriving DecidableEq

/-- The `goal` selectbox offers "Lose Weight", "Maintain Weight", "Gain Weight". -/
inductive Goal
  | loseWeight
  | maintainWeight
  | gainWeight
deriving DecidableEq

/-- `calculate_bmr(weight, age, gender)` (src/streamlit_app.py lines 6-11):
`(10 * weight) + (6.25 * 170) - (5 * age) + 5` for Male,
`(10 * weight) + (6.25 * 160) - (5 * age) - 161` for Female. -/
def calculate_bmr (weight age : ℚ) (gender : Gender) : ℚ :=
  match gender with
  | .male => (10 * weight) + (6.25 * 170) - (5 * age) + 5
  | .female => (10 * weight) + (6.25 * 160) - (5 * age) - 161

/-- The activity factor of `calculate_tdee` (line 17):
`1.2 + (0.075 * activity_hours/7)`. -/
def activity_factor (activity_hours : ℚ) : ℚ :=
  1.2 + (0.075 * activity_hours / 7)

/-- `calculate_tdee(bmr, activity_hours)` (lines 13-18). -/
def calculate_tdee (bmr activity_hours : ℚ) : ℚ :=
  bmr * activity_factor activity_hours

/-- Protein share of calories per goal (lines 22-33). -/
def protein_pct : Goal → ℚ
  | .loseWeight => 0.40
  | .maintainWeight => 0.30
  | .gainWeight => 0.30

/-- Fat share of calories per goal (lines 22-33). -/
def fat_pct : Goal → ℚ
  | .loseWeight => 0.35
  | .maintainWeight => 0.30
  | .gainWeight => 0.25

/-- Carb share of calories per goal (lines 22-33). -/
def carb_pct : Goal → ℚ
  | .loseWeight => 0.25
  | .maintainWeight => 0.40
  | .gainWeight => 0.45

/-- Python 3 `round` to an integer: nearest integer, ties to the even one. -/
def pyRound (x : ℚ) : ℤ :=
  if Int.fract x < 1 / 2 then ⌊x⌋
  else if 1 / 2 < Int.fract x then ⌊x⌋ + 1
  else if ⌊x⌋ % 2 = 0 then ⌊x⌋ else ⌊x⌋ + 1

/-- The dict returned by `calculate_macros` (lines 43-47). -/
structure MacroSplit where
  protein : ℤ
  fat : ℤ
  carbs : ℤ
deriving DecidableEq

/-- `calculate_macros(calories, goal)` (lines 20-47): goal percentages,
calories split, grams at 4/9/4 kcal per gram, each rounded. -/
def calculate_macros (calories : ℚ) (goal : Goal) : MacroSplit :=
  let protein_cals := calories * protein_pct goal
  let fat_cals := calories * fat_pct goal
  let carb_cals := calories * carb_pct goal
  let protein_g := protein_cals / 4
  let fat_g := fat_cals / 9
  let carb_g := carb_cals / 4
  { protein := pyRound protein_g
    fat := pyRound fat_g
    carbs := pyRound carb_g }

/-- `target_calories` as assigned in the button handler (lines 111-124):
Lose Weight clamps at 1200, Gain Weight adds the surplus with no floor,
Maintain returns the TDEE unchanged.  `days_until_target` is
`(target_date - today).days`. -/
def target_calories (tdee current_weight target_weight days_until_target : ℚ) :
    Goal → ℚ
  | .loseWeight =>
      max (tdee - (current_weight - target_weight) * 7700 / days_until_target) 1200
  | .gainWeight =>
      tdee + (target_weight - current_weight) * 7700 / days_until_target
  | .maintainWeight => tdee

/-- The exception `create_weight_projection` can raise: the division
`daily_change = (target_weight - start_weight) / total_days` with
`total_days = 0` raises Python's ZeroDivisionError. -/
inductive PyErr
  | zeroDivisionError
deriving DecidableEq

/-- The `weights` list of `create_weight_projection` (lines 49-74): one entry
per date of `pd.date_range(today, target_date, freq='D')` — that is
`total_days + 1` dates when `total_days ≥ 0` and none when
`total_days < 0` — with `weights[i] = start_weight + daily_change * i`. -/
def projWeights (start_weight target_weight : ℚ) (total_days : ℤ) : List ℚ :=
  let daily_change := (target_weight - start_weight) / (total_days : ℚ)
  (List.range (total_days + 1).toNat).map
    (fun (i : ℕ) => start_weight + daily_change * (i : ℚ))

/-- `create_weight_projection(start_weight, target_weight, target_date)`
(lines 49-74), with the date range reduced to
`total_days = (target_date - today).days`.  Python raises ZeroDivisionError
when `total_days = 0`; otherwise the weights list is built (empty when
`total_days < 0`, since the daily date range is then empty). -/
def create_weight_projection (start_weight target_weight : ℚ) (total_days : ℤ) :
    Except PyErr (List ℚ) :=
  if total_days = 0 then .error .zeroDivisionError
  else .ok (projWeights start_weight target_weight total_days)

/-- The right edge (in day offsets from today) of the pandas `'W'` resample
bin that day `i` falls in: bins are right-closed weeks ending on Sunday, and
`offset` is the day offset of the first Sunday on or after today
(`offset = 6` when today is a Monday, `0` when it is a Sunday). -/
def binLabel (offset i : ℕ) : ℕ :=
  if i ≤ offset then offset else offset + 7 * ((i - offset + 6) / 7)

/-- The weekly digest (lines 186-191):
`weekly_df = projection_df.resample('W', on='Date').first()` keeps, for each
calendar-week bin, its first row — i.e. every day `i` whose bin differs from
day `i - 1`'s — and prints it as week number
`(label - today).days // 7 + 1`.  Each digest entry is
`(week number, day index of the point kept)`. -/
def weeklyDigest (offset total_days : ℕ) : List (ℕ × ℕ) :=
  ((List.range (total_days + 1)).filter
      (fun i => i == 0 || !(binLabel offset i == binLabel offset (i - 1)))).map
    (fun i => (binLabel offset i / 7 + 1, i))

/-- Modelled from the spec's words (§4.5 Weekly digest): "taking the first
point of each 7-day bucket starting from day 0, labeling buckets Week 1,
Week 2, … in order" — bucket `j` covers days `7j .. 7j+6`, its first point is
day `7j`, and days `0 .. total_days` fill `total_days / 7 + 1` buckets. -/
def specWeeklyDigest (total_days : ℕ) : List (ℕ × ℕ) :=
  (List.range (total_days / 7 + 1)).map (fun j => (j + 1, 7 * j))

/-- Height constant of the claimed BMR formula: 170 for Male, 160 for Female. -/
def heightConstant : Gender → ℚ
  | .male => 170
  | .female => 160

/-- Gender offset of the claimed BMR formula: +5 for Male, −161 for Female. -/
def genderOffset : Gender → ℚ
  | .male => 5
  | .female => -161

/-- C1: for every tdee, currentWeight, targetWeight and daysUntilTarget > 0,
the Lose Weight calorie target equals
`max(tdee − (currentWeight − targetWeight) × 7700 / daysUntilTarget, 1200)`
and in particular is never below 1200. -/
theorem lose_weight_target_floor (tdee cw tw d : ℚ) (hd : 0 < d) :
    target_calories tdee cw tw d Goal.loseWeight
        = max (tdee - (cw - tw) * 7700 / d) 1200
      ∧ 1200 ≤ target_calories tdee cw tw d Goal.loseWeight :=
  ⟨rfl, le_max_right _ _⟩

theorem lose_weight_target_floor_witness :
    target_calories 1994 70 65 35 Goal.loseWeight
        = max (1994 - (70 - 65) * 7700 / 35) 1200
      ∧ 1200 ≤ target_calories 1994 70 65 35 Goal.loseWeight :=
  lose_weight_target_floor 1994 70 65 35 (by norm_num)

/-- C7: `calculate_bmr` equals
`10×weight + 6.25×heightConstant − 5×age + genderOffset` with
heightConstant 170/160 and genderOffset +5/−161 for Male/Female; it is a
total function of its three arguments. -/
theorem bmr_formula (w a : ℚ) (g : Gender) :
    calculate_bmr w a g
      = 10 * w + 6.25 * heightConstant g - 5 * a + genderOffset g := by
  cases g <;> (unfold calculate_bmr heightConstant genderOffset; ring)

/-- C8: `calculate_tdee` returns `bmr × (1.2 + 0.075 × (hours / 7))`, and the
activity factor is unbounded above over nonnegative hours. -/
theorem tdee_formula :
    (∀ bmr hours : ℚ, calculate_tdee bmr hours
        = bmr * (1.2 + 0.075 * (hours / 7)))
      ∧ ∀ C : ℚ, ∃ hours : ℚ, 0 ≤ hours ∧ C < activity_factor hours := by
  constructor
  · intro bmr hours
    unfold calculate_tdee activity_factor
    ring
  · intro C
    refine ⟨100 * (|C| + 1), by positivity, ?_⟩
    unfold activity_factor
    have h1 : C ≤ |C| := le_abs_self C
    have h2 : 0 ≤ |C| := abs_nonneg C
    linarith

/-- C9: `calculate_bmr` is strictly increasing in weight (age, gender fixed)
and strictly decreasing in age (weight, gender fixed). -/
theorem bmr_monotone (g : Gender) (w w' a a' : ℚ) (hw : w < w') (ha : a < a') :
    (∀ b : ℚ, calculate_bmr w b g < calculate_bmr w' b g)
      ∧ ∀ v : ℚ, calculate_bmr v a' g < calculate_bmr v a g := by
  constructor
  · intro b
    cases g <;> (simp only [calculate_bmr]; linarith)
  · intro v
    cases g <;> (simp only [calculate_bmr]; linarith)

theorem bmr_monotone_witness :
    (∀ b : ℚ, calculate_bmr 70 b Gender.male < calculate_bmr 71 b Gender.male)
      ∧ ∀ v : ℚ, calculate_bmr v 31 Gender.male < calculate_bmr v 30 Gender.male :=
  bmr_monotone Gender.male 70 71 30 31 (by norm_num) (by norm_num)

/-- C10: the Gain Weight target is
`tdee + (targetWeight − currentWeight) × 7700 / daysUntilTarget` with no
floor: when targetWeight < currentWeight the result is below the TDEE, and
inside the UI weight bounds (40–200 kg) it can even be negative. -/
theorem gain_weight_no_floor (tdee cw tw d : ℚ) (hd : 0 < d) :
    target_calories tdee cw tw d Goal.gainWeight
        = tdee + (tw - cw) * 7700 / d
      ∧ (tw < cw → target_calories tdee cw tw d Goal.gainWeight < tdee)
      ∧ ∃ tdee' cw' tw' d' : ℚ, 0 < d' ∧ 40 ≤ cw' ∧ cw' ≤ 200 ∧ 40 ≤ tw'
          ∧ tw' ≤ 200 ∧ target_calories tdee' cw' tw' d' Goal.gainWeight < 0 := by
  refine ⟨rfl, ?_, 2000, 200, 40, 7, by norm_num, by norm_num, by norm_num,
    by norm_num, by norm_num, ?_⟩
  · intro h
    show tdee + (tw - cw) * 7700 / d < tdee
    have : (tw - cw) * 7700 / d < 0 := by
      apply div_neg_of_neg_of_pos _ hd
      nlinarith
    linarith
  · show (2000 : ℚ) + (40 - 200) * 7700 / 7 < 0
    norm_num

theorem gain_weight_no_floor_witness :
    target_calories 1994 70 75 35 Goal.gainWeight
        = 1994 + (75 - 70) * 7700 / 35
      ∧ (75 < (70 : ℚ) → target_calories 1994 70 75 35 Goal.gainWeight < 1994)
      ∧ ∃ tdee' cw' tw' d' : ℚ, 0 < d' ∧ 40 ≤ cw' ∧ cw' ≤ 200 ∧ 40 ≤ tw'
          ∧ tw' ≤ 200 ∧ target_calories tdee' cw' tw' d' Goal.gainWeight < 0 :=
  gain_weight_no_floor 1994 70 75 35 (by norm_num)

/-- C2 counterexample: with `total_days = -1` the projection returns a result
(the empty list) rather than failing, and with `total_days = 0` it raises
ZeroDivisionError — there is no InvalidInput guard anywhere. -/
theorem projection_nonpositive_days_cex :
    create_weight_projection 70 65 (-1) = Except.ok []
      ∧ create_weight_projection 70 65 0 = Except.error PyErr.zeroDivisionError :=
  ⟨rfl, rfl⟩

/-- C2 (amended): for `total_days ≤ 0`, the projection raises Python's
ZeroDivisionError when `total_days = 0` and silently returns an empty
sequence when `total_days < 0`; no InvalidInput error is raised. -/
theorem projection_nonpositive_days (s t : ℚ) (d : ℤ) (hd : d ≤ 0) :
    create_weight_projection s t d
      = if d = 0 then Except.error PyErr.zeroDivisionError else Except.ok [] := by
  by_cases h : d = 0
  · simp [create_weight_projection, h]
  · have h0 : (d + 1).toNat = 0 := by omega
    simp [create_weight_projection, projWeights, h, h0]

theorem projection_nonpositive_days_witness :
    create_weight_projection 70 65 (-3)
      = if (-3 : ℤ) = 0 then Except.error PyErr.zeroDivisionError
        else Except.ok [] :=
  projection_nonpositive_days 70 65 (-3) (by norm_num)

/-- `pyRound` of a nonnegative rational is nonnegative. -/
theorem pyRound_nonneg (x : ℚ) (hx : 0 ≤ x) : 0 ≤ pyRound x := by
  have hfl : 0 ≤ ⌊x⌋ := Int.floor_nonneg.mpr hx
  unfold pyRound
  split
  · exact hfl
  · split
    · omega
    · split <;> omega

/-- `pyRound` moves a rational by at most one half. -/
theorem abs_pyRound_sub_le (x : ℚ) : |(pyRound x : ℚ) - x| ≤ 1 / 2 := by
  have h0 : 0 ≤ Int.fract x := Int.fract_nonneg x
  have h1 : Int.fract x < 1 := Int.fract_lt_one x
  have hfl : (⌊x⌋ : ℚ) = x - Int.fract x := by unfold Int.fract; ring
  unfold pyRound
  split
  · next h => rw [abs_le]; constructor <;> linarith
  · split
    · next h h' => rw [abs_le]; push_cast; constructor <;> linarith [not_lt.mp h]
    · next h h' =>
      have heq : Int.fract x = 1 / 2 := by linarith [not_lt.mp h, not_lt.mp h']
      split <;> (rw [abs_le]; push_cast; constructor <;> linarith)

/-- C4: for calories ≥ 0 and any goal, `calculate_macros` rounds
`calories × pct / 4` (protein), `/ 9` (fat), `/ 4` (carbs) using the goal's
percentage row; the grams are nonnegative integers within 1 of the exact
values, and `protein×4 + fat×9 + carb×4` reconstructs the calorie target
within the accumulated rounding tolerance. -/
theorem allocate_macros_spec (c : ℚ) (g : Goal) (hc : 0 ≤ c) :
    (calculate_macros c g).protein = pyRound (c * protein_pct g / 4)
      ∧ (calculate_macros c g).fat = pyRound (c * fat_pct g / 9)
      ∧ (calculate_macros c g).carbs = pyRound (c * carb_pct g / 4)
      ∧ 0 ≤ (calculate_macros c g).protein
      ∧ 0 ≤ (calculate_macros c g).fat
      ∧ 0 ≤ (calculate_macros c g).carbs
      ∧ |((calculate_macros c g).protein : ℚ) - c * protein_pct g / 4| ≤ 1
      ∧ |((calculate_macros c g).fat : ℚ) - c * fat_pct g / 9| ≤ 1
      ∧ |((calculate_macros c g).carbs : ℚ) - c * carb_pct g / 4| ≤ 1
      ∧ |(((calculate_macros c g).protein : ℚ) * 4
            + ((calculate_macros c g).fat : ℚ) * 9
            + ((calculate_macros c g).carbs : ℚ) * 4) - c| ≤ 17 / 2 := by
  have hpp : (0 : ℚ) ≤ protein_pct g := by cases g <;> norm_num [protein_pct]
  have hfp : (0 : ℚ) ≤ fat_pct g := by cases g <;> norm_num [fat_pct]
  have hcp : (0 : ℚ) ≤ carb_pct g := by cases g <;> norm_num [carb_pct]
  have hsum : protein_pct g + fat_pct g + carb_pct g = 1 := by
    cases g <;> norm_num [protein_pct, fat_pct, carb_pct]
  have hP : (calculate_macros c g).protein = pyRound (c * protein_pct g / 4) := rfl
  have hF : (calculate_macros c g).fat = pyRound (c * fat_pct g / 9) := rfl
  have hC : (calculate_macros c g).carbs = pyRound (c * carb_pct g / 4) := rfl
  have haP := abs_pyRound_sub_le (c * protein_pct g / 4)
  have haF := abs_pyRound_sub_le (c * fat_pct g / 9)
  have haC := abs_pyRound_sub_le (c * carb_pct g / 4)
  rw [abs_le] at haP haF haC
  refine ⟨hP, hF, hC, ?_, ?_, ?_, ?_, ?_, ?_, ?_⟩
  · rw [hP]; exact pyRound_nonneg _ (by positivity)
  · rw [hF]; exact pyRound_nonneg _ (by positivity)
  · rw [hC]; exact pyRound_nonneg _ (by positivity)
  · rw [hP, abs_le]; exact ⟨by linarith [haP.1], by linarith [haP.2]⟩
  · rw [hF, abs_le]; exact ⟨by linarith [haF.1], by linarith [haF.2]⟩
  · rw [hC, abs_le]; exact ⟨by linarith [haC.1], by linarith [haC.2]⟩
  · rw [hP, hF, hC, abs_le]
    have hrecon : c * protein_pct g / 4 * 4 + c * fat_pct g / 9 * 9
        + c * carb_pct g / 4 * 4 = c := by linear_combination c * hsum
    constructor <;>
      linarith [haP.1, haP.2, haF.1, haF.2, haC.1, haC.2]

theorem allocate_macros_spec_witness :
    (calculate_macros 1200 Goal.loseWeight).protein
        = pyRound (1200 * protein_pct Goal.loseWeight / 4)
      ∧ (calculate_macros 1200 Goal.loseWeight).fat
        = pyRound (1200 * fat_pct Goal.loseWeight / 9)
      ∧ (calculate_macros 1200 Goal.loseWeight).carbs
        = pyRound (1200 * carb_pct Goal.loseWeight / 4)
      ∧ 0 ≤ (calculate_macros 1200 Goal.loseWeight).protein
      ∧ 0 ≤ (calculate_macros 1200 Goal.loseWeight).fat
      ∧ 0 ≤ (calculate_macros 1200 Goal.loseWeight).carbs
      ∧ |((calculate_macros 1200 Goal.loseWeight).protein : ℚ)
            - 1200 * protein_pct Goal.loseWeight / 4| ≤ 1
      ∧ |((calculate_macros 1200 Goal.loseWeight).fat : ℚ)
            - 1200 * fat_pct Goal.loseWeight / 9| ≤ 1
      ∧ |((calculate_macros 1200 Goal.loseWeight).carbs : ℚ)
            - 1200 * carb_pct Goal.loseWeight / 4| ≤ 1
      ∧ |(((calculate_macros 1200 Goal.loseWeight).protein : ℚ) * 4
            + ((calculate_macros 1200 Goal.loseWeight).fat : ℚ) * 9
            + ((calculate_macros 1200 Goal.loseWeight).carbs : ℚ) * 4)
            - 1200| ≤ 17 / 2 :=
  allocate_macros_spec 1200 Goal.loseWeight (by norm_num)

/-- C5: for `total_days > 0` the projection has `total_days + 1` points, its
`i`-th weight is `start + (target − start) / total_days × i`, its first point
is the current weight and its last point is the target weight (exactly, in
`ℚ`). -/
theorem projection_points (s t : ℚ) (d : ℤ) (hd : 0 < d) :
    (projWeights s t d).length = d.toNat + 1
      ∧ (∀ i : ℕ, i ≤ d.toNat →
          (projWeights s t d)[i]? = some (s + (t - s) / (d : ℚ) * (i : ℚ)))
      ∧ (projWeights s t d).head? = some s
      ∧ (projWeights s t d).getLast? = some t := by
  have hn : (d + 1).toNat = d.toNat + 1 := by omega
  have hne : ((d : ℚ)) ≠ 0 := by
    exact_mod_cast (by omega : d ≠ 0)
  have hget : ∀ i : ℕ, i ≤ d.toNat →
      (projWeights s t d)[i]? = some (s + (t - s) / (d : ℚ) * (i : ℚ)) := by
    intro i hi
    unfold projWeights
    rw [List.getElem?_map, List.getElem?_range (by omega)]
    rfl
  have hlen : (projWeights s t d).length = d.toNat + 1 := by
    unfold projWeights
    rw [List.length_map, List.length_range, hn]
  refine ⟨hlen, hget, ?_, ?_⟩
  · rw [List.head?_eq_getElem?, hget 0 (Nat.zero_le _)]
    norm_num
  · rw [List.getLast?_eq_getElem?, hlen, Nat.add_sub_cancel,
      hget d.toNat (by omega)]
    have hcast : ((d.toNat : ℚ)) = (d : ℚ) := by
      exact_mod_cast congrArg (Int.cast : ℤ → ℚ) (Int.toNat_of_nonneg (by omega))
    rw [hcast]
    field_simp

theorem projection_points_witness :
    (projWeights 70 65 5).length = (5 : ℤ).toNat + 1
      ∧ (∀ i : ℕ, i ≤ (5 : ℤ).toNat →
          (projWeights 70 65 5)[i]? = some (70 + (65 - 70) / ((5 : ℤ) : ℚ) * (i : ℚ)))
      ∧ (projWeights 70 65 5).head? = some 70
      ∧ (projWeights 70 65 5).getLast? = some 65 :=
  projection_points 70 65 5 (by norm_num)

/-- C6: for `total_days > 0` the projected weights are strictly increasing
when the target exceeds the current weight, and strictly decreasing when it
is below it. -/
theorem projection_strict_monotone (s t : ℚ) (d : ℤ) (hd : 0 < d) :
    (s < t → (projWeights s t d).Pairwise (· < ·))
      ∧ (t < s → (projWeights s t d).Pairwise (· > ·)) := by
  have hdq : (0 : ℚ) < (d : ℚ) := by exact_mod_cast hd
  constructor
  · intro hst
    unfold projWeights
    refine List.Pairwise.map _ (fun a b hab => ?_)
      (List.pairwise_lt_range _)
    have hc : 0 < (t - s) / (d : ℚ) := div_pos (by linarith) hdq
    have hab' : (a : ℚ) < (b : ℚ) := by exact_mod_cast hab
    have := mul_lt_mul_of_pos_left hab' hc
    linarith
  · intro hts
    unfold projWeights
    refine List.Pairwise.map _ (fun a b hab => ?_)
      (List.pairwise_lt_range _)
    have hc : (t - s) / (d : ℚ) < 0 := div_neg_of_neg_of_pos (by linarith) hdq
    have hab' : (a : ℚ) < (b : ℚ) := by exact_mod_cast hab
    have := mul_lt_mul_of_neg_left hab' hc
    linarith

theorem projection_strict_monotone_witness :
    ((70 : ℚ) < 65 → (projWeights 70 65 5).Pairwise (· < ·))
      ∧ ((65 : ℚ) < 70 → (projWeights 70 65 5).Pairwise (· > ·)) :=
  projection_strict_monotone 70 65 5 (by norm_num)

/-- C3 counterexample: when today is a Sunday (first Sunday offset 0) and the
target is 8 days away, the resampled digest keeps days 0, 1 and 8 (weeks 1,
2, 3), not the spec's days 0 and 7. -/
theorem weekly_digest_cex : weeklyDigest 0 8 ≠ specWeeklyDigest 8 := by decide

/-- On a Monday start (first Sunday 6 days away) day `i`'s bin ends on day
`6 + 7 × (i / 7)`. -/
theorem binLabel_monday (i : ℕ) : binLabel 6 i = 6 + 7 * (i / 7) := by
  unfold binLabel
  split <;> omega

/-- On a Monday start the rows the resample keeps are exactly the days
divisible by 7. -/
theorem weekly_filter_monday (n : ℕ) :
    (List.range (n + 1)).filter
        (fun i => i == 0 || !(binLabel 6 i == binLabel 6 (i - 1)))
      = (List.range (n + 1)).filter (fun i => i % 7 == 0) := by
  apply List.filter_congr
  intro i _
  rw [Bool.eq_iff_iff]
  simp only [Bool.or_eq_true, beq_iff_eq, Bool.not_eq_true', beq_eq_false_iff_ne,
    ne_eq, binLabel_monday]
  omega

/-- The days divisible by 7 among `0 .. n`, with their week numbers, are the
spec's weekly buckets. -/
theorem weekly_filter_map (n : ℕ) :
    ((List.range (n + 1)).filter (fun i => i % 7 == 0)).map
        (fun i => (i / 7 + 1, i))
      = (List.range (n / 7 + 1)).map (fun j => (j + 1, 7 * j)) := by
  induction n with
  | zero => decide
  | succ n ih =>
    rw [List.range_succ, List.filter_append, List.map_append, ih]
    by_cases h7 : (n + 1) % 7 = 0
    · have hp : ((n + 1) % 7 == 0) = true := by simp [h7]
      have hdiv : (n + 1) / 7 + 1 = (n / 7 + 1) + 1 := by omega
      rw [hdiv, List.range_succ (n / 7 + 1), List.map_append]
      congr 1
      simp only [List.filter_cons, List.filter_nil, hp, if_true, List.map_cons,
        List.map_nil, List.cons.injEq, Prod.mk.injEq, and_true]
      omega
    · have hp : ((n + 1) % 7 == 0) = false := by simp [h7]
      have hdiv : (n + 1) / 7 = n / 7 := by omega
      rw [hdiv]
      simp [List.filter_cons, hp]

/-- C3 (amended): the digest keeps the first point of each pandas
calendar-week bin (right-closed weeks ending on Sunday), so the spec's rule —
indices 0, 7, 14, … labeled "Week 1", "Week 2", … — describes it exactly
when today is a Monday (first Sunday 6 days away). -/
theorem weekly_digest_monday (n : ℕ) : weeklyDigest 6 n = specWeeklyDigest n := by
  unfold weeklyDigest specWeeklyDigest
  rw [weekly_filter_monday, ← weekly_filter_map n]
  apply List.map_congr_left
  intro i _
  rw [binLabel_monday]
  have h67 : (6 + 7 * (i / 7)) / 7 = i / 7 := by omega
  rw [h67]

end MacroCalc
